import Mathlib

/-!
Verification of the duplicate-detection engine of the provider-validation
repository (`agents/duplicate_detection_agent.py`).

Modelling conventions:
* Python runtime values appearing in provider fields are modelled by `PyVal`
  (strings, integers, `None`); a missing dictionary key is `Option.none`.
* Python `float` scores are modelled by `ℚ` (the engine only ever combines
  the decimal literal weights with Jaccard fractions).
* A Python exception (e.g. `AttributeError` from calling `.lower()` on a
  non-string) is modelled by `Option.none` in an `Option`-valued function.
* String primitives (`lower`, `upper`, `strip`, `split`, `replace`, digit
  filtering) are implemented structurally over `List Char` so that concrete
  evaluation is kernel-reducible; they mirror the Python semantics on the
  ASCII inputs in scope.
* Wall-clock fields (`detected_at`, `generated_at`, from `datetime.now()`)
  are omitted from the derived records: they carry no information about the
  computation.
-/

/-- A Python runtime value as stored in a provider record field. -/
inductive PyVal where
  | vStr : String → PyVal
  | vInt : Int → PyVal
  | vNone : PyVal
deriving DecidableEq

open PyVal

/- `pyStr` (Python `str(v)` coercion) is defined below `intToStr`. -/

/-- Python truthiness of a value (`if v:`). -/
def pyTruthy : PyVal → Bool
  | .vStr s => s ≠ ""
  | .vInt n => n ≠ 0
  | .vNone => false

/-- Python `s.lower()` on a string (per-character lower-casing). -/
def lowerS (s : String) : String := String.mk (s.toList.map Char.toLower)

/-- Python `s.upper()` on a string. -/
def upperS (s : String) : String := String.mk (s.toList.map Char.toUpper)

/-- Python `v.lower()`: defined only on strings, otherwise `AttributeError`
(modelled by `none`). -/
def pyLowerStr : PyVal → Option String
  | .vStr s => some (lowerS s)
  | _ => none

/-- Python `v.upper()`: defined only on strings, otherwise `AttributeError`. -/
def pyUpperStr : PyVal → Option String
  | .vStr s => some (upperS s)
  | _ => none

/-- Python `s.strip()`: drop leading and trailing whitespace. -/
def trimS (s : String) : String :=
  String.mk (((s.toList.dropWhile Char.isWhitespace).reverse.dropWhile
      Char.isWhitespace).reverse)

/-- Helper for `splitWsS`: accumulate the current (reversed) token. -/
def splitWsAux : List Char → List Char → List (List Char)
  | [], acc => if acc = [] then [] else [acc.reverse]
  | c :: cs, acc =>
    if c.isWhitespace then
      if acc = [] then splitWsAux cs [] else acc.reverse :: splitWsAux cs []
    else splitWsAux cs (c :: acc)

/-- Python `s.split()` (no argument): split on whitespace runs, no empty
tokens. -/
def splitWsS (s : String) : List String :=
  (splitWsAux s.toList []).map String.mk

/-- Boolean test that `p` is a prefix of `l` (used by `replaceFuel`). -/
def isPrefixOfB : List Char → List Char → Bool
  | [], _ => true
  | _ :: _, [] => false
  | p :: ps, c :: cs => p = c && isPrefixOfB ps cs

/-- Fuelled worker for `replaceS`: replaces non-overlapping occurrences of
`pat` left to right, like Python `str.replace`. -/
def replaceFuel (pat rep : List Char) : Nat → List Char → List Char
  | 0, s => s
  | _ + 1, [] => []
  | n + 1, c :: cs =>
    if isPrefixOfB pat (c :: cs) then
      rep ++ replaceFuel pat rep n ((c :: cs).drop pat.length)
    else c :: replaceFuel pat rep n cs

/-- Python `s.replace(pat, rep)` (for non-empty `pat`, the only use here). -/
def replaceS (s pat rep : String) : String :=
  String.mk (replaceFuel pat.toList rep.toList s.toList.length s.toList)

/-- Python `re.sub(r'\D', '', s)`: keep only (ASCII) digits. -/
def digitsOf (s : String) : String := String.mk (s.toList.filter Char.isDigit)

/-- Python `<` on two strings: lexicographic comparison of code points. -/
def strLtB : List Char → List Char → Bool
  | [], [] => false
  | [], _ :: _ => true
  | _ :: _, [] => false
  | a :: as_, b :: bs => if a = b then strLtB as_ bs else a.val < b.val

/-- Python `<` applied to two `PyVal`s: strings and ints are comparable
within their own type, any other combination raises `TypeError`. -/
def pyLt : PyVal → PyVal → Option Bool
  | .vStr a, .vStr b => some (strLtB a.toList b.toList)
  | .vInt a, .vInt b => some (decide (a < b))
  | _, _ => none

/-- A provider record: a Python dict; `none` marks an absent key.
Fields are those read by the duplicate-detection agent. -/
structure Provider where
  provider_id : Option PyVal
  first_name : Option PyVal
  last_name : Option PyVal
  npi : Option PyVal
  phone : Option PyVal
  address : Option PyVal
  city : Option PyVal
  state : Option PyVal
  zip_code : Option PyVal
  license_number : Option PyVal
  specialty : Option PyVal
deriving DecidableEq

/-- Python `record.get(key, '')`: absent key defaults to the empty string. -/
def getS (o : Option PyVal) : PyVal := o.getD (.vStr "")

/-- Python `record.get(key)` (no default): absent key defaults to `None`. -/
def getN (o : Option PyVal) : PyVal := o.getD .vNone

/-- Decimal digits of `n` (fuelled; `fuel > n` suffices). -/
def natDigits : Nat → Nat → List Char
  | 0, _ => []
  | f + 1, n =>
    if n < 10 then [Char.ofNat (48 + n)]
    else natDigits f (n / 10) ++ [Char.ofNat (48 + n % 10)]

/-- Python `str(n)` for a natural number. -/
def natToStr (n : Nat) : String := String.mk (natDigits (n + 1) n)

/-- Python `str(n)` for an integer. -/
def intToStr (n : Int) : String :=
  if n < 0 then "-" ++ natToStr n.natAbs else natToStr n.natAbs

/-- Python `str(v)` coercion. -/
def pyStr : PyVal → String
  | .vStr s => s
  | .vInt n => intToStr n
  | .vNone => "None"

/-- `FIELD_WEIGHTS` (class attribute, lines 15-22 of the agent). -/
def FIELD_WEIGHTS : String → ℚ
  | "npi" => 0.30
  | "name" => 0.25
  | "phone" => 0.15
  | "address" => 0.15
  | "license" => 0.10
  | "specialty" => 0.05
  | _ => 0

/-- `SIMILARITY_THRESHOLD = 0.75` (line 24). -/
def SIMILARITY_THRESHOLD : ℚ := 0.75

/-- Token set of a string: `set(s.lower().split())`. -/
def tokensS (s : String) : Finset String := (splitWsS (lowerS s)).toFinset

/-- `_string_similarity` (lines 166-183): token-set Jaccard similarity with
early exits for empty inputs and exact equality. -/
def stringSimilarity (s1 s2 : String) : ℚ :=
  if s1 = "" ∨ s2 = "" then 0
  else if s1 = s2 then 1
  else if tokensS s1 = ∅ ∨ tokensS s2 = ∅ then 0
  else if tokensS s1 ∪ tokensS s2 = ∅ then 0
  else ((tokensS s1 ∩ tokensS s2).card : ℚ) / ((tokensS s1 ∪ tokensS s2).card : ℚ)

/-- `_normalize_phone` (lines 185-193): keep digits, drop a leading US
country code from an 11-digit string, keep the last 10 digits. -/
def normalizePhone (v : PyVal) : String :=
  if pyTruthy v then
    let ds := (pyStr v).toList.filter Char.isDigit
    let ds := if ds.length = 11 ∧ ds.head? = some '1' then ds.tail else ds
    String.mk (if 10 ≤ ds.length then ds.drop (ds.length - 10) else ds)
  else ""

/-- Python `' '.join(parts)`. -/
def joinSpace : List String → String
  | [] => ""
  | [s] => s
  | s :: rest => s ++ " " ++ joinSpace rest

/-- `_normalize_address` (lines 195-207): join the non-empty raw parts
(lower-cased and stripped), then fold street-suffix abbreviations. -/
def normalizeAddress (p : Provider) : String :=
  let parts := [pyStr (getS p.address), pyStr (getS p.city),
    pyStr (getS p.state), String.mk ((pyStr (getS p.zip_code)).toList.take 5)]
  let joined := joinSpace ((parts.filter (fun s => s ≠ "")).map
    (fun s => trimS (lowerS s)))
  let r1 := replaceS joined "street" "st"
  let r2 := replaceS r1 "avenue" "ave"
  let r3 := replaceS r2 "boulevard" "blvd"
  replaceS r3 "drive" "dr"

/-- `_format_address` (lines 209-211). -/
def formatAddress (p : Provider) : String :=
  pyStr (getS p.address) ++ ", " ++ pyStr (getS p.city) ++ ", " ++
    pyStr (getS p.state) ++ " " ++ pyStr (getS p.zip_code)

/-- Substring containment, Python `p in s`. -/
def isSubstrB (p : List Char) : List Char → Bool
  | [] => isPrefixOfB p []
  | c :: cs => isPrefixOfB p (c :: cs) || isSubstrB p cs

/-- The `related_groups` table of `_specialties_related` (lines 215-221). -/
def relatedGroups : List (List String) :=
  [["internal medicine", "family medicine", "primary care"],
   ["cardiology", "cardiovascular", "heart"],
   ["orthopedic", "orthopedics", "orthopedic surgery"],
   ["psychiatry", "psychology", "mental health"],
   ["pediatrics", "pediatric", "child health"]]

/-- `_specialties_related` (lines 213-226): some group has a member occurring
as a substring of each specialty. -/
def specialtiesRelated (spec1 spec2 : String) : Bool :=
  relatedGroups.any (fun g =>
    (g.any (fun s => isSubstrB s.toList spec1.toList)) &&
    (g.any (fun s => isSubstrB s.toList spec2.toList)))

/-- `str(provider.get('npi', '')).strip()` (lines 82-83). -/
def npiKey (p : Provider) : String := trimS (pyStr (getS p.npi))

/-- NPI term of the score (lines 81-86): exact match only, skipped when
either side is empty. -/
def npiContribution (p1 p2 : Provider) : ℚ :=
  if npiKey p1 ≠ "" ∧ npiKey p2 ≠ "" then
    (if npiKey p1 = npiKey p2 then 1 else 0) * FIELD_WEIGHTS "npi"
  else 0

/-- `f"{first_name} {last_name}"` (f-string coerces with `str`). -/
def nameRawS (p : Provider) : String :=
  pyStr (getS p.first_name) ++ " " ++ pyStr (getS p.last_name)

/-- `f"{first} {last}".lower().strip()` (lines 89-90). -/
def nameKey (p : Provider) : String := trimS (lowerS (nameRawS p))

/-- Name term of the score (lines 88-92): always-counted fuzzy match. -/
def nameContribution (p1 p2 : Provider) : ℚ :=
  stringSimilarity (nameKey p1) (nameKey p2) * FIELD_WEIGHTS "name"

/-- Phone term of the score (lines 94-99): skipped when either normalized
phone is empty. -/
def phoneContribution (p1 p2 : Provider) : ℚ :=
  if normalizePhone (getS p1.phone) ≠ "" ∧ normalizePhone (getS p2.phone) ≠ "" then
    (if normalizePhone (getS p1.phone) = normalizePhone (getS p2.phone) then 1
     else stringSimilarity (normalizePhone (getS p1.phone))
       (normalizePhone (getS p2.phone))) * FIELD_WEIGHTS "phone"
  else 0

/-- Address term of the score (lines 101-105): always-counted fuzzy match. -/
def addressContribution (p1 p2 : Provider) : ℚ :=
  stringSimilarity (normalizeAddress p1) (normalizeAddress p2) *
    FIELD_WEIGHTS "address"

/-- `str(provider.get('license_number', '')).upper().strip()` (lines 108-109). -/
def licKey (p : Provider) : String := trimS (upperS (pyStr (getS p.license_number)))

/-- License term of the score (lines 107-112): skipped when either side is
empty. -/
def licenseContribution (p1 p2 : Provider) : ℚ :=
  if licKey p1 ≠ "" ∧ licKey p2 ≠ "" then
    (if licKey p1 = licKey p2 then 1 else stringSimilarity (licKey p1) (licKey p2)) *
      FIELD_WEIGHTS "license"
  else 0

/-- Specialty term of the score (lines 114-118).  The source calls
`provider.get('specialty', '').lower()` with no `str()` coercion, so a
non-string specialty raises `AttributeError` (`none` here). -/
def specContribution (p1 p2 : Provider) : Option ℚ :=
  match pyLowerStr (getS p1.specialty), pyLowerStr (getS p2.specialty) with
  | some s1, some s2 =>
    some ((if trimS s1 = trimS s2 then 1
        else if specialtiesRelated (trimS s1) (trimS s2) then 0.5 else 0) *
      FIELD_WEIGHTS "specialty")
  | _, _ => none

/-- `calculate_similarity_score` (lines 77-120): weighted sum of the six
field terms; `none` models the exception escaping from the specialty
comparison. -/
def calculateSimilarityScore (p1 p2 : Provider) : Option ℚ :=
  match specContribution p1 p2 with
  | none => none
  | some sc =>
    some (npiContribution p1 p2 + nameContribution p1 p2 +
      phoneContribution p1 p2 + addressContribution p1 p2 +
      licenseContribution p1 p2 + sc)

/-- `_get_confidence_level` (lines 253-262). -/
def getConfidenceLevel (similarity : ℚ) : String :=
  if 0.95 ≤ similarity then "Very High"
  else if 0.85 ≤ similarity then "High"
  else if 0.75 ≤ similarity then "Medium"
  else "Low"

/-- `_get_recommended_action` (lines 264-273). -/
def getRecommendedAction (similarity : ℚ) : String :=
  if 0.95 ≤ similarity then "Auto-merge recommended"
  else if 0.85 ≤ similarity then "Manual review and merge"
  else if 0.75 ≤ similarity then "Review for potential merge"
  else "Monitor - likely different providers"

/-- Round-half-even to an integer, as Python `round` does on exact values. -/
def roundHalfEven (x : ℚ) : ℤ :=
  if x - ⌊x⌋ < 1/2 then ⌊x⌋
  else if (1/2 : ℚ) < x - ⌊x⌋ then ⌊x⌋ + 1
  else if ⌊x⌋ % 2 = 0 then ⌊x⌋ else ⌊x⌋ + 1

/-- Python `round(x, 1)`: round to one decimal place. -/
def round1 (x : ℚ) : ℚ := (roundHalfEven (x * 10) : ℚ) / 10

/-- Python `f"{n:04d}"` for a natural number: zero-pad to width 4. -/
def pad4 (n : Nat) : String :=
  let s := natToStr n
  if s.length < 4 then String.mk (List.replicate (4 - s.length) '0') ++ s else s

/-- The per-provider projection stored in a `DuplicatePair`
(lines 47-62): `id`, `npi`, `specialty` and `phone` hold the raw dict
values, `name` and `address` are formatted strings. -/
structure ProviderSummary where
  id : PyVal
  name : String
  npi : PyVal
  specialty : PyVal
  phone : PyVal
  address : String
deriving DecidableEq

/-- Projection of a provider record (lines 47-54 / 55-62). -/
def mkSummary (p : Provider) : ProviderSummary :=
  ⟨getS p.provider_id, nameRawS p, getS p.npi, getS p.specialty,
    getS p.phone, formatAddress p⟩

/-- A duplicate-pair record (lines 45-68), minus the wall-clock
`detected_at` field. -/
structure DuplicatePair where
  pair_id : String
  provider_1 : ProviderSummary
  provider_2 : ProviderSummary
  similarity_score : ℚ
  matching_fields : List String
  confidence : String
  recommended_action : String

/-- `_get_matching_fields` (lines 228-251).  The name / specialty / state
comparisons call `.lower()` / `.upper()` on the raw values without `str()`
coercion, so they can raise (`none`); the last-name comparison is only
reached when the full names differ. -/
def getMatchingFields (p1 p2 : Provider) : Option (List String) := do
  let m1 : List String := if getN p1.npi = getN p2.npi then ["NPI"] else []
  let name1 := lowerS (nameRawS p1)
  let name2 := lowerS (nameRawS p2)
  let m2 ← (if name1 = name2 then some ["Full Name"]
    else do
      let l1 ← pyLowerStr (getS p1.last_name)
      let l2 ← pyLowerStr (getS p2.last_name)
      some (if l1 = l2 then ["Last Name"] else []))
  let m3 : List String :=
    if normalizePhone (getS p1.phone) = normalizePhone (getS p2.phone)
    then ["Phone"] else []
  let s1 ← pyLowerStr (getS p1.specialty)
  let s2 ← pyLowerStr (getS p2.specialty)
  let m4 : List String := if s1 = s2 then ["Specialty"] else []
  let u1 ← pyUpperStr (getS p1.state)
  let u2 ← pyUpperStr (getS p2.state)
  let m5 : List String := if u1 = u2 then ["State"] else []
  some (m1 ++ m2 ++ m3 ++ m4 ++ m5)

/-- The duplicate record materialized at lines 45-68 for pair `(i, j)` with
raw similarity `sim`. -/
def mkDuplicateRecord (i j : Nat) (p1 p2 : Provider) (sim : ℚ)
    (matching : List String) : DuplicatePair :=
  ⟨"DUP-" ++ pad4 i ++ "-" ++ pad4 j, mkSummary p1, mkSummary p2,
    round1 (sim * 100), matching, getConfidenceLevel sim,
    getRecommendedAction sim⟩

/-- `tuple(sorted([provider1.get('provider_id', ''), provider2.get(...)]))`
(line 37); Python `sorted` on two elements swaps them iff the second
compares below the first, and raises on incomparable types. -/
def pairKey (p1 p2 : Provider) : Option (PyVal × PyVal) :=
  match pyLt (getS p2.provider_id) (getS p1.provider_id) with
  | none => none
  | some lt =>
    some (if lt then (getS p2.provider_id, getS p1.provider_id)
      else (getS p1.provider_id, getS p2.provider_id))

/-- One insertion step of the stable descending sort. -/
def insertByScore (d : DuplicatePair) : List DuplicatePair → List DuplicatePair
  | [] => [d]
  | e :: es =>
    if d.similarity_score < e.similarity_score then e :: insertByScore d es
    else d :: e :: es

/-- `duplicates.sort(key=lambda x: x['similarity_score'], reverse=True)`
(line 73): the stable descending sort by score (insertion formulation). -/
def sortByScoreDesc (l : List DuplicatePair) : List DuplicatePair :=
  l.foldr insertByScore []

/-- All index pairs `i < j` in the order of the Python nested loop
(lines 35-36). -/
def indexPairs (l : List (Nat × Provider)) :
    List ((Nat × Provider) × (Nat × Provider)) :=
  l.flatMap (fun a => (l.filter (fun b => a.1 < b.1)).map (fun b => (a, b)))

/-- The body of the nested loop of `find_potential_duplicates`
(lines 35-70), carrying the `processed_pairs` set and the accumulated
`duplicates` list. -/
def findLoop : List ((Nat × Provider) × (Nat × Provider)) →
    List (PyVal × PyVal) → List DuplicatePair → Option (List DuplicatePair)
  | [], _, acc => some acc
  | ((i, p1), (j, p2)) :: rest, processed, acc =>
    match pairKey p1 p2 with
    | none => none
    | some key =>
      if key ∈ processed then findLoop rest processed acc
      else
        match calculateSimilarityScore p1 p2 with
        | none => none
        | some sim =>
          if SIMILARITY_THRESHOLD ≤ sim then
            match getMatchingFields p1 p2 with
            | none => none
            | some matching =>
              findLoop rest (processed ++ [key])
                (acc ++ [mkDuplicateRecord i j p1 p2 sim matching])
          else findLoop rest processed acc

/-- `find_potential_duplicates` (lines 30-75). -/
def findPotentialDuplicates (providers : List Provider) :
    Option (List DuplicatePair) :=
  (findLoop (indexPairs providers.enum) [] []).map sortByScoreDesc

/-- A field-conflict entry of `_identify_merge_fields` (lines 297-311). -/
structure MergeField where
  field : String
  value_1 : PyVal
  value_2 : PyVal
  recommendation : String
deriving DecidableEq

/-- `_identify_merge_fields` (lines 291-313): conflicts on the projected
phone and address. -/
def identifyMergeFields (d : DuplicatePair) : List MergeField :=
  (if d.provider_1.phone ≠ d.provider_2.phone then
    [⟨"phone", d.provider_1.phone, d.provider_2.phone,
      "Keep most recently verified"⟩] else []) ++
  (if d.provider_1.address ≠ d.provider_2.address then
    [⟨"address", .vStr d.provider_1.address, .vStr d.provider_2.address,
      "Keep most complete address"⟩] else [])

/-- `_generate_merge_recommendation` (lines 275-283). -/
def generateMergeRecommendation (d : DuplicatePair) : String :=
  if 95 ≤ d.similarity_score then
    "These records appear to be exact duplicates. Auto-merge is recommended."
  else if 85 ≤ d.similarity_score then
    "High similarity detected. Manual review recommended before merging."
  else
    "Moderate similarity. Careful review required to confirm duplicate status."

/-- A merge-candidate record (lines 128-136). -/
structure MergeCandidate where
  pair_id : String
  providers : List ProviderSummary
  similarity : ℚ
  merge_recommendation : String
  primary_record : PyVal
  fields_to_merge : List MergeField
  auto_merge_eligible : Bool

/-- The merge-candidate built from one qualifying duplicate pair
(lines 128-136); `_determine_primary_record` (line 289) picks
`provider_1`'s id. -/
def mkMergeCandidate (d : DuplicatePair) : MergeCandidate :=
  ⟨d.pair_id, [d.provider_1, d.provider_2], d.similarity_score,
    generateMergeRecommendation d, d.provider_1.id, identifyMergeFields d,
    decide (95 ≤ d.similarity_score)⟩

/-- `suggest_merge_candidates` (lines 122-139): keep the pairs scoring at
least 85, in input order. -/
def suggestMergeCandidates (duplicates : List DuplicatePair) :
    List MergeCandidate :=
  duplicates.foldr
    (fun d rest =>
      if 85 ≤ d.similarity_score then mkMergeCandidate d :: rest else rest) []

/-- `_generate_report_recommendations` (lines 315-331). -/
def generateReportRecommendations (duplicates : List DuplicatePair) :
    List String :=
  let high := (duplicates.filter (fun d => 85 ≤ d.similarity_score)).length
  let auto := (duplicates.filter (fun d => 95 ≤ d.similarity_score)).length
  (if 0 < high then
    ["Review and merge " ++ natToStr high ++ " high-confidence duplicate pairs"]
  else []) ++
  (if 0 < auto then
    [natToStr auto ++ " pairs are eligible for automatic merging"] else []) ++
  (if 0 < duplicates.length then
    ["Implement duplicate prevention at data entry point",
     "Consider standardizing data formats to reduce false duplicates"]
  else [])

/-- The deduplication report (lines 151-164), minus the wall-clock
`generated_at`; the `by_confidence` defaultdict is modelled as its count
function. -/
structure Report where
  report_title : String
  total_providers_analyzed : Nat
  potential_duplicates_found : Nat
  merge_candidates_count : Nat
  auto_merge_eligible_count : Nat
  by_confidence : String → Nat
  duplicates : List DuplicatePair
  merge_candidates : List MergeCandidate
  recommendations : List String

/-- `generate_deduplication_report` (lines 141-164). -/
def generateDeduplicationReport (providers : List Provider) : Option Report :=
  match findPotentialDuplicates providers with
  | none => none
  | some duplicates =>
    some ⟨"Provider Duplicate Detection Report",
      providers.length, duplicates.length,
      (suggestMergeCandidates duplicates).length,
      ((suggestMergeCandidates duplicates).filter
        (fun m => m.auto_merge_eligible)).length,
      (fun c => (duplicates.filter (fun d => d.confidence = c)).length),
      duplicates.take 50, (suggestMergeCandidates duplicates).take 20,
      generateReportRecommendations duplicates⟩

/-- Shorthand: a present string-valued dict entry. -/
def sv (s : String) : Option PyVal := some (.vStr s)

/-- A provider record with every field absent. -/
def emptyProvider : Provider :=
  ⟨none, none, none, none, none, none, none, none, none, none, none⟩

/-- C1 input: well-formed except that `specialty` holds the integer `5`. -/
def provC1a : Provider :=
  ⟨sv "P001", sv "John", sv "Smith", sv "1234567890", sv "555-111-2222",
    sv "1 Main St", sv "Springfield", sv "IL", sv "62704", sv "LIC1",
    some (.vInt 5)⟩

/-- C1 input: a fully string-valued record. -/
def provC1b : Provider :=
  ⟨sv "P002", sv "John", sv "Smith", sv "1234567890", sv "555-111-2222",
    sv "1 Main St", sv "Springfield", sv "IL", sv "62704", sv "LIC1",
    sv "Cardiology"⟩

/-- C2 scenario, record 1: NPI `1234567890`, John Smith, phone normalizing
to `5551234567`, Cardiology, street `100 Maple Road` in Springfield IL
62704, no license. -/
def provC2a : Provider :=
  ⟨sv "P001", sv "John", sv "Smith", sv "1234567890", sv "555-123-4567",
    sv "100 Maple Road", sv "Springfield", sv "IL", sv "62704", none,
    sv "Cardiology"⟩

/-- C2 scenario, record 2: same NPI/name/phone/specialty/city/state/zip,
different street `200 Oak Lane`. -/
def provC2b : Provider :=
  ⟨sv "P002", sv "John", sv "Smith", sv "1234567890", sv "(555) 123-4567",
    sv "200 Oak Lane", sv "Springfield", sv "IL", sv "62704", none,
    sv "Cardiology"⟩

/-- C3 counterexample input: every field a non-empty string, but the phone
`"abc"` contains no digit, so it normalizes to the empty string. -/
def provC3 : Provider :=
  ⟨sv "P1", sv "Jane", sv "Doe", sv "9998887777", sv "abc", sv "5 Oak Ave",
    sv "Boston", sv "MA", sv "02101", sv "LIC99", sv "Cardiology"⟩

/-- C3 witness input: a fully populated record with a digit-bearing phone. -/
def provW3 : Provider :=
  ⟨sv "P9", sv "Jane", sv "Doe", sv "9998887777", sv "555-999-8888",
    sv "5 Oak Ave", sv "Boston", sv "MA", sv "02101", sv "LIC99",
    sv "Cardiology"⟩

/-- C5/C6 witness input, record 1. -/
def provW5a : Provider :=
  ⟨sv "P100", sv "Jane", sv "Doe", sv "9998887777", sv "5551234567",
    sv "5 Oak Ave", sv "Boston", sv "MA", sv "02101", sv "LIC99",
    sv "Cardiology"⟩

/-- C5/C6 witness input, record 2: identical to record 1 except for its id. -/
def provW5b : Provider :=
  ⟨sv "P200", sv "Jane", sv "Doe", sv "9998887777", sv "5551234567",
    sv "5 Oak Ave", sv "Boston", sv "MA", sv "02101", sv "LIC99",
    sv "Cardiology"⟩

/-- The duplicate pair `find_potential_duplicates` emits for
`[provW5a, provW5b]`. -/
def dW5 : DuplicatePair :=
  mkDuplicateRecord 0 1 provW5a provW5b 1
    ["NPI", "Full Name", "Phone", "Specialty", "State"]

/-- C9 counterexample, record 1: empty NPI, and no field value shared with
record 2 other than the specialty — but the full names overlap on tokens. -/
def cex9a : Provider :=
  ⟨sv "P1", sv "John Smith", sv "Jr", some (.vStr ""), sv "111-222-3333",
    sv "10 Elm St", sv "Boston", sv "MA", sv "02101", sv "ABC123",
    sv "Cardiology"⟩

/-- C9 counterexample, record 2. -/
def cex9b : Provider :=
  ⟨sv "P2", sv "Mary", sv "John Smith", some (.vStr ""), sv "444-555-6666",
    sv "99 Pine Rd", sv "Denver", sv "CO", sv "80201", sv "XYZ789",
    sv "Cardiology"⟩

/-- C9 witness, record 1: empty NPI and token-disjoint from record 2 in
name, address and license. -/
def provW9a : Provider :=
  ⟨sv "P1", sv "Alice", sv "Brown", none, sv "111-222-3333", sv "10 Elm St",
    sv "Boston", sv "MA", sv "02101", sv "ABC123", sv "Cardiology"⟩

/-- C9 witness, record 2. -/
def provW9b : Provider :=
  ⟨sv "P2", sv "Carol", sv "Davis", none, sv "444-555-6666", sv "99 Pine Rd",
    sv "Denver", sv "CO", sv "80201", sv "XYZ789", sv "Cardiology"⟩

/-- A projected provider used to build standalone duplicate pairs for the
merge-candidate claims. -/
def sumA : ProviderSummary :=
  ⟨.vStr "P1", "John Smith", .vStr "1234567890", .vStr "Cardiology",
    .vStr "555-111-2222", "1 Main St, Springfield, IL 62704"⟩

/-- A second projected provider with a different phone and address. -/
def sumB : ProviderSummary :=
  ⟨.vStr "P2", "John Smith", .vStr "1234567890", .vStr "Cardiology",
    .vStr "555-111-9999", "2 Main St, Springfield, IL 62704"⟩

/-- C7 witness: a pair scoring 96. -/
def dup96 : DuplicatePair :=
  ⟨"DUP-0000-0001", sumA, sumB, 96, ["NPI"], "Very High",
    "Auto-merge recommended"⟩

/-- C7 witness: a pair scoring 86. -/
def dup86 : DuplicatePair :=
  ⟨"DUP-0000-0002", sumA, sumB, 86, ["NPI"], "High",
    "Manual review and merge"⟩

/-- C7 witness: a pair scoring 80, below the merge threshold. -/
def dup80 : DuplicatePair :=
  ⟨"DUP-0001-0002", sumA, sumB, 80, ["NPI"], "Medium",
    "Review for potential merge"⟩

theorem FW_npi : FIELD_WEIGHTS "npi" = 0.30 := rfl

theorem FW_name : FIELD_WEIGHTS "name" = 0.25 := rfl

theorem FW_phone : FIELD_WEIGHTS "phone" = 0.15 := rfl

theorem FW_address : FIELD_WEIGHTS "address" = 0.15 := rfl

theorem FW_license : FIELD_WEIGHTS "license" = 0.10 := rfl

theorem FW_specialty : FIELD_WEIGHTS "specialty" = 0.05 := rfl

theorem stringSimilarity_comm (s1 s2 : String) :
    stringSimilarity s1 s2 = stringSimilarity s2 s1 := by
  unfold stringSimilarity
  by_cases hA : s1 = "" ∨ s2 = ""
  · rw [if_pos hA, if_pos (Or.symm hA)]
  · rw [if_neg hA, if_neg (fun h => hA (Or.symm h))]
    by_cases hB : s1 = s2
    · rw [if_pos hB, if_pos hB.symm]
    · rw [if_neg hB, if_neg (Ne.symm hB)]
      by_cases hC : tokensS s1 = ∅ ∨ tokensS s2 = ∅
      · rw [if_pos hC, if_pos (Or.symm hC)]
      · rw [if_neg hC, if_neg (fun h => hC (Or.symm h))]
        rw [Finset.union_comm (tokensS s2) (tokensS s1),
          Finset.inter_comm (tokensS s2) (tokensS s1)]

theorem stringSimilarity_nonneg (s1 s2 : String) :
    0 ≤ stringSimilarity s1 s2 := by
  unfold stringSimilarity
  split_ifs <;> positivity

theorem stringSimilarity_le_one (s1 s2 : String) :
    stringSimilarity s1 s2 ≤ 1 := by
  unfold stringSimilarity
  split_ifs with h1 h2 h3 h4
  · norm_num
  · norm_num
  · norm_num
  · norm_num
  · have hpos : 0 < ((tokensS s1 ∪ tokensS s2).card : ℚ) := by
      exact_mod_cast Finset.card_pos.2 (Finset.nonempty_iff_ne_empty.2 h4)
    rw [div_le_one hpos]
    exact_mod_cast Finset.card_le_card
      ((Finset.inter_subset_left).trans Finset.subset_union_left)

theorem stringSimilarity_self (s : String) (h : s ≠ "") :
    stringSimilarity s s = 1 := by
  unfold stringSimilarity
  rw [if_neg (show ¬(s = "" ∨ s = "") from fun hc => hc.elim h h), if_pos rfl]

theorem stringSimilarity_empty_left (s2 : String) :
    stringSimilarity "" s2 = 0 := by
  unfold stringSimilarity
  rw [if_pos (Or.inl rfl)]

theorem stringSimilarity_zero_of_disjoint (s1 s2 : String) (hne : s1 ≠ s2)
    (hd : tokensS s1 ∩ tokensS s2 = ∅) : stringSimilarity s1 s2 = 0 := by
  unfold stringSimilarity
  split_ifs with h1 h2 h3
  · rfl
  · rfl
  · rfl
  · rw [hd]
    simp

theorem specialtiesRelated_comm (a b : String) :
    specialtiesRelated a b = specialtiesRelated b a := by
  unfold specialtiesRelated
  congr 1
  funext g
  exact Bool.and_comm _ _

theorem npiContribution_comm (p1 p2 : Provider) :
    npiContribution p1 p2 = npiContribution p2 p1 := by
  unfold npiContribution
  split_ifs <;> first | rfl | tauto

theorem nameContribution_comm (p1 p2 : Provider) :
    nameContribution p1 p2 = nameContribution p2 p1 := by
  unfold nameContribution
  rw [stringSimilarity_comm]

theorem phoneContribution_comm (p1 p2 : Provider) :
    phoneContribution p1 p2 = phoneContribution p2 p1 := by
  unfold phoneContribution
  rw [stringSimilarity_comm (normalizePhone (getS p2.phone))
    (normalizePhone (getS p1.phone))]
  split_ifs <;> first | rfl | tauto

theorem addressContribution_comm (p1 p2 : Provider) :
    addressContribution p1 p2 = addressContribution p2 p1 := by
  unfold addressContribution
  rw [stringSimilarity_comm]

theorem licenseContribution_comm (p1 p2 : Provider) :
    licenseContribution p1 p2 = licenseContribution p2 p1 := by
  unfold licenseContribution
  rw [stringSimilarity_comm (licKey p2) (licKey p1)]
  split_ifs <;> first | rfl | tauto

theorem specContribution_comm (p1 p2 : Provider) :
    specContribution p1 p2 = specContribution p2 p1 := by
  unfold specContribution
  cases h1 : pyLowerStr (getS p1.specialty) with
  | none =>
    cases h2 : pyLowerStr (getS p2.specialty) with
    | none => rfl
    | some s2 => rfl
  | some s1 =>
    cases h2 : pyLowerStr (getS p2.specialty) with
    | none => rfl
    | some s2 =>
      simp only
      rw [specialtiesRelated_comm (trimS s2) (trimS s1)]
      split_ifs <;> first | rfl | tauto

theorem calculateSimilarityScore_comm (a b : Provider) :
    calculateSimilarityScore a b = calculateSimilarityScore b a := by
  unfold calculateSimilarityScore
  rw [specContribution_comm]
  cases specContribution b a with
  | none => rfl
  | some sc =>
    simp only [Option.some.injEq]
    rw [npiContribution_comm, nameContribution_comm, phoneContribution_comm,
      addressContribution_comm, licenseContribution_comm]

theorem npiContribution_nonneg (p1 p2 : Provider) :
    0 ≤ npiContribution p1 p2 := by
  unfold npiContribution
  split_ifs <;> norm_num [FW_npi]

theorem npiContribution_le (p1 p2 : Provider) :
    npiContribution p1 p2 ≤ 0.30 := by
  unfold npiContribution
  split_ifs <;> norm_num [FW_npi]

theorem npiContribution_zero_left (p1 p2 : Provider) (h : npiKey p1 = "") :
    npiContribution p1 p2 = 0 := by
  unfold npiContribution
  rw [if_neg (show ¬(npiKey p1 ≠ "" ∧ npiKey p2 ≠ "") from
    fun hc => hc.1 h)]

theorem npiContribution_eq_weight (p1 p2 : Provider) (h1 : npiKey p1 ≠ "")
    (h2 : npiKey p2 ≠ "") (h3 : npiKey p1 = npiKey p2) :
    npiContribution p1 p2 = 0.30 := by
  unfold npiContribution
  rw [if_pos ⟨h1, h2⟩, if_pos h3, FW_npi, one_mul]

theorem nameContribution_nonneg (p1 p2 : Provider) :
    0 ≤ nameContribution p1 p2 := by
  unfold nameContribution
  have := stringSimilarity_nonneg (nameKey p1) (nameKey p2)
  rw [FW_name]
  positivity

theorem nameContribution_le (p1 p2 : Provider) :
    nameContribution p1 p2 ≤ 0.25 := by
  unfold nameContribution
  rw [FW_name]
  nlinarith [stringSimilarity_le_one (nameKey p1) (nameKey p2),
    stringSimilarity_nonneg (nameKey p1) (nameKey p2)]

theorem nameContribution_eq_weight (p1 p2 : Provider)
    (h1 : nameKey p1 ≠ "") (h2 : nameKey p1 = nameKey p2) :
    nameContribution p1 p2 = 0.25 := by
  unfold nameContribution
  rw [← h2, stringSimilarity_self (nameKey p1) h1, FW_name, one_mul]

theorem nameContribution_zero_of_disjoint (p1 p2 : Provider)
    (h1 : nameKey p1 ≠ nameKey p2)
    (h2 : tokensS (nameKey p1) ∩ tokensS (nameKey p2) = ∅) :
    nameContribution p1 p2 = 0 := by
  unfold nameContribution
  rw [stringSimilarity_zero_of_disjoint (nameKey p1) (nameKey p2) h1 h2,
    zero_mul]

theorem phoneContribution_nonneg (p1 p2 : Provider) :
    0 ≤ phoneContribution p1 p2 := by
  unfold phoneContribution
  split_ifs with hc he
  · norm_num [FW_phone]
  · rw [FW_phone]
    nlinarith [stringSimilarity_nonneg (normalizePhone (getS p1.phone))
      (normalizePhone (getS p2.phone))]
  · norm_num

theorem phoneContribution_le (p1 p2 : Provider) :
    phoneContribution p1 p2 ≤ 0.15 := by
  unfold phoneContribution
  split_ifs with hc he
  · norm_num [FW_phone]
  · rw [FW_phone]
    nlinarith [stringSimilarity_le_one (normalizePhone (getS p1.phone))
      (normalizePhone (getS p2.phone))]
  · norm_num

theorem phoneContribution_eq_weight (p1 p2 : Provider)
    (h1 : normalizePhone (getS p1.phone) ≠ "")
    (h2 : normalizePhone (getS p2.phone) ≠ "")
    (h3 : normalizePhone (getS p1.phone) = normalizePhone (getS p2.phone)) :
    phoneContribution p1 p2 = 0.15 := by
  unfold phoneContribution
  rw [if_pos ⟨h1, h2⟩, if_pos h3, FW_phone, one_mul]

theorem phoneContribution_zero_left (p1 p2 : Provider)
    (h : normalizePhone (getS p1.phone) = "") : phoneContribution p1 p2 = 0 := by
  unfold phoneContribution
  rw [if_neg (show ¬(normalizePhone (getS p1.phone) ≠ "" ∧
    normalizePhone (getS p2.phone) ≠ "") from fun hc => hc.1 h)]

theorem phoneContribution_zero_of_disjoint (p1 p2 : Provider)
    (h1 : normalizePhone (getS p1.phone) ≠ normalizePhone (getS p2.phone))
    (h2 : tokensS (normalizePhone (getS p1.phone)) ∩
      tokensS (normalizePhone (getS p2.phone)) = ∅) :
    phoneContribution p1 p2 = 0 := by
  unfold phoneContribution
  split_ifs with hc
  · rw [stringSimilarity_zero_of_disjoint _ _ h1 h2, zero_mul]
  · rfl

theorem addressContribution_nonneg (p1 p2 : Provider) :
    0 ≤ addressContribution p1 p2 := by
  unfold addressContribution
  have := stringSimilarity_nonneg (normalizeAddress p1) (normalizeAddress p2)
  rw [FW_address]
  positivity

theorem addressContribution_le (p1 p2 : Provider) :
    addressContribution p1 p2 ≤ 0.15 := by
  unfold addressContribution
  rw [FW_address]
  nlinarith [stringSimilarity_le_one (normalizeAddress p1) (normalizeAddress p2),
    stringSimilarity_nonneg (normalizeAddress p1) (normalizeAddress p2)]

theorem addressContribution_eq_weight (p1 p2 : Provider)
    (h1 : normalizeAddress p1 ≠ "")
    (h2 : normalizeAddress p1 = normalizeAddress p2) :
    addressContribution p1 p2 = 0.15 := by
  unfold addressContribution
  rw [← h2, stringSimilarity_self (normalizeAddress p1) h1, FW_address, one_mul]

theorem addressContribution_zero_of_disjoint (p1 p2 : Provider)
    (h1 : normalizeAddress p1 ≠ normalizeAddress p2)
    (h2 : tokensS (normalizeAddress p1) ∩ tokensS (normalizeAddress p2) = ∅) :
    addressContribution p1 p2 = 0 := by
  unfold addressContribution
  rw [stringSimilarity_zero_of_disjoint _ _ h1 h2, zero_mul]

theorem licenseContribution_nonneg (p1 p2 : Provider) :
    0 ≤ licenseContribution p1 p2 := by
  unfold licenseContribution
  split_ifs with hc he
  · norm_num [FW_license]
  · rw [FW_license]
    nlinarith [stringSimilarity_nonneg (licKey p1) (licKey p2)]
  · norm_num

theorem licenseContribution_le (p1 p2 : Provider) :
    licenseContribution p1 p2 ≤ 0.10 := by
  unfold licenseContribution
  split_ifs with hc he
  · norm_num [FW_license]
  · rw [FW_license]
    nlinarith [stringSimilarity_le_one (licKey p1) (licKey p2)]
  · norm_num

theorem licenseContribution_eq_weight (p1 p2 : Provider) (h1 : licKey p1 ≠ "")
    (h2 : licKey p2 ≠ "") (h3 : licKey p1 = licKey p2) :
    licenseContribution p1 p2 = 0.10 := by
  unfold licenseContribution
  rw [if_pos ⟨h1, h2⟩, if_pos h3, FW_license, one_mul]

theorem licenseContribution_zero_left (p1 p2 : Provider) (h : licKey p1 = "") :
    licenseContribution p1 p2 = 0 := by
  unfold licenseContribution
  rw [if_neg (show ¬(licKey p1 ≠ "" ∧ licKey p2 ≠ "") from fun hc => hc.1 h)]

theorem licenseContribution_zero_of_disjoint (p1 p2 : Provider)
    (h1 : licKey p1 ≠ licKey p2)
    (h2 : tokensS (licKey p1) ∩ tokensS (licKey p2) = ∅) :
    licenseContribution p1 p2 = 0 := by
  unfold licenseContribution
  split_ifs with hc
  · rw [stringSimilarity_zero_of_disjoint _ _ h1 h2, zero_mul]
  · rfl

theorem specContribution_bounds (p1 p2 : Provider) (t : ℚ)
    (h : specContribution p1 p2 = some t) : 0 ≤ t ∧ t ≤ 0.05 := by
  unfold specContribution at h
  cases h1 : pyLowerStr (getS p1.specialty) with
  | none => rw [h1] at h; exact absurd h (by simp)
  | some s1 =>
    cases h2 : pyLowerStr (getS p2.specialty) with
    | none => rw [h1, h2] at h; exact absurd h (by simp)
    | some s2 =>
      rw [h1, h2] at h
      simp only [Option.some.injEq] at h
      rw [← h]
      split_ifs <;> norm_num [FW_specialty]

theorem specContribution_eq_weight (p1 p2 : Provider) (s1 s2 : String)
    (h1 : getS p1.specialty = .vStr s1) (h2 : getS p2.specialty = .vStr s2)
    (he : trimS (lowerS s1) = trimS (lowerS s2)) :
    specContribution p1 p2 = some 0.05 := by
  unfold specContribution
  rw [h1, h2]
  simp only [pyLowerStr]
  rw [if_pos he, FW_specialty, one_mul]


theorem calcScore_eval (p1 p2 : Provider) (q1 q2 q3 q4 q5 q6 t : ℚ)
    (h1 : npiContribution p1 p2 = q1) (h2 : nameContribution p1 p2 = q2)
    (h3 : phoneContribution p1 p2 = q3) (h4 : addressContribution p1 p2 = q4)
    (h5 : licenseContribution p1 p2 = q5)
    (h6 : specContribution p1 p2 = some q6)
    (hsum : q1 + q2 + q3 + q4 + q5 + q6 = t) :
    calculateSimilarityScore p1 p2 = some t := by
  unfold calculateSimilarityScore
  rw [h6, h1, h2, h3, h4, h5]
  exact congrArg some hsum

theorem calculateSimilarityScore_bounds (p1 p2 : Provider) (s : ℚ)
    (h : calculateSimilarityScore p1 p2 = some s) : 0 ≤ s ∧ s ≤ 1 := by
  unfold calculateSimilarityScore at h
  cases hs : specContribution p1 p2 with
  | none => rw [hs] at h; exact absurd h (by simp)
  | some sc =>
    rw [hs] at h
    simp only [Option.some.injEq] at h
    obtain ⟨hc1, hc2⟩ := specContribution_bounds p1 p2 sc hs
    constructor
    · rw [← h]
      have := npiContribution_nonneg p1 p2
      have := nameContribution_nonneg p1 p2
      have := phoneContribution_nonneg p1 p2
      have := addressContribution_nonneg p1 p2
      have := licenseContribution_nonneg p1 p2
      linarith
    · rw [← h]
      have := npiContribution_le p1 p2
      have := nameContribution_le p1 p2
      have := phoneContribution_le p1 p2
      have := addressContribution_le p1 p2
      have := licenseContribution_le p1 p2
      linarith

theorem roundHalfEven_le_add_half (x : ℚ) :
    (roundHalfEven x : ℚ) ≤ x + 1/2 := by
  unfold roundHalfEven
  split_ifs <;> push_cast <;>
    linarith [Int.floor_le x, Int.lt_floor_add_one x]

theorem sub_half_le_roundHalfEven (x : ℚ) :
    x - 1/2 ≤ (roundHalfEven x : ℚ) := by
  unfold roundHalfEven
  split_ifs <;> push_cast <;>
    linarith [Int.floor_le x, Int.lt_floor_add_one x]

theorem roundHalfEven_le (x : ℚ) (M : ℤ) (h : x ≤ (M : ℚ)) :
    roundHalfEven x ≤ M := by
  have h1 := roundHalfEven_le_add_half x
  have h2 : (roundHalfEven x : ℚ) < (M : ℚ) + 1 := by linarith
  have h3 : roundHalfEven x < M + 1 := by exact_mod_cast h2
  omega

theorem le_roundHalfEven (x : ℚ) (m : ℤ) (h : (m : ℚ) ≤ x) :
    m ≤ roundHalfEven x := by
  have h1 := sub_half_le_roundHalfEven x
  have h2 : (m : ℚ) - 1 < (roundHalfEven x : ℚ) := by linarith
  have h3 : m - 1 < roundHalfEven x := by exact_mod_cast h2
  omega

theorem mem_insertByScore (d x : DuplicatePair) (l : List DuplicatePair) :
    x ∈ insertByScore d l ↔ x = d ∨ x ∈ l := by
  induction l with
  | nil => simp [insertByScore]
  | cons e es ih =>
    unfold insertByScore
    split_ifs with h
    · rw [List.mem_cons, ih, List.mem_cons]
      tauto
    · rw [List.mem_cons]

theorem sortByScoreDesc_mem (x : DuplicatePair) (l : List DuplicatePair) :
    x ∈ sortByScoreDesc l ↔ x ∈ l := by
  unfold sortByScoreDesc
  induction l with
  | nil => simp
  | cons e es ih =>
    rw [List.foldr_cons, mem_insertByScore, List.mem_cons, ih]

theorem pairwise_insertByScore (d : DuplicatePair) (l : List DuplicatePair)
    (h : l.Pairwise (fun a b => b.similarity_score ≤ a.similarity_score)) :
    (insertByScore d l).Pairwise
      (fun a b => b.similarity_score ≤ a.similarity_score) := by
  induction l with
  | nil => simp [insertByScore]
  | cons e es ih =>
    rw [List.pairwise_cons] at h
    obtain ⟨he, hes⟩ := h
    unfold insertByScore
    split_ifs with hlt
    · rw [List.pairwise_cons]
      refine ⟨?_, ih hes⟩
      intro x hx
      rcases (mem_insertByScore d x es).1 hx with rfl | hxes
      · exact le_of_lt hlt
      · exact he x hxes
    · rw [List.pairwise_cons]
      refine ⟨?_, ?_⟩
      · intro x hx
        rcases List.mem_cons.1 hx with rfl | hxes
        · exact not_lt.1 hlt
        · exact le_trans (he x hxes) (not_lt.1 hlt)
      · rw [List.pairwise_cons]
        exact ⟨he, hes⟩

theorem sortByScoreDesc_sorted (l : List DuplicatePair) :
    (sortByScoreDesc l).Pairwise
      (fun a b => b.similarity_score ≤ a.similarity_score) := by
  unfold sortByScoreDesc
  induction l with
  | nil => simp
  | cons e es ih =>
    rw [List.foldr_cons]
    exact pairwise_insertByScore e _ ih

theorem findLoop_forall (P : DuplicatePair → Prop)
    (hP : ∀ i j p1 p2 sim matching,
      calculateSimilarityScore p1 p2 = some sim → SIMILARITY_THRESHOLD ≤ sim →
      P (mkDuplicateRecord i j p1 p2 sim matching)) :
    ∀ (l : List ((Nat × Provider) × (Nat × Provider)))
      (processed : List (PyVal × PyVal)) (acc out : List DuplicatePair),
      findLoop l processed acc = some out → (∀ d ∈ acc, P d) →
      ∀ d ∈ out, P d := by
  intro l
  induction l with
  | nil =>
    intro processed acc out h hacc
    unfold findLoop at h
    rw [Option.some.injEq] at h
    subst h
    exact hacc
  | cons hd rest ih =>
    obtain ⟨⟨i, p1⟩, j, p2⟩ := hd
    intro processed acc out h hacc
    unfold findLoop at h
    cases hk : pairKey p1 p2 with
    | none => rw [hk] at h; exact Option.noConfusion h
    | some key =>
      rw [hk] at h
      dsimp only at h
      by_cases hmem : key ∈ processed
      · rw [if_pos hmem] at h
        exact ih processed acc out h hacc
      · rw [if_neg hmem] at h
        cases hs : calculateSimilarityScore p1 p2 with
        | none => rw [hs] at h; exact Option.noConfusion h
        | some sim =>
          rw [hs] at h
          dsimp only at h
          by_cases hth : SIMILARITY_THRESHOLD ≤ sim
          · rw [if_pos hth] at h
            cases hm : getMatchingFields p1 p2 with
            | none => rw [hm] at h; exact Option.noConfusion h
            | some matching =>
              rw [hm] at h
              dsimp only at h
              refine ih _ _ _ h ?_
              intro d hmemd
              rcases List.mem_append.1 hmemd with hin | hnew
              · exact hacc d hin
              · rw [List.mem_singleton] at hnew
                subst hnew
                exact hP i j p1 p2 sim matching hs hth
          · rw [if_neg hth] at h
            exact ih processed acc out h hacc

theorem findPotentialDuplicates_parts (providers : List Provider)
    (out : List DuplicatePair) (h : findPotentialDuplicates providers = some out) :
    ∃ mid, findLoop (indexPairs providers.enum) [] [] = some mid ∧
      out = sortByScoreDesc mid := by
  unfold findPotentialDuplicates at h
  cases hm : findLoop (indexPairs providers.enum) [] [] with
  | none => rw [hm] at h; exact Option.noConfusion h
  | some mid =>
    rw [hm] at h
    simp only [Option.map_some', Option.some.injEq] at h
    exact ⟨mid, rfl, h.symm⟩

/-- C1: the claim states that `calculate_similarity_score` (and hence
`find_potential_duplicates`) coerces every field value via string conversion
and never raises, even for non-string field values.  The code contradicts
this: line 115 calls `.lower()` on the raw specialty value with no `str()`
coercion, so a record whose specialty is the integer `5` raises
`AttributeError` — modelled as `none` — at this concrete failing input. -/
theorem C1_specialty_nonstring_raises :
    calculateSimilarityScore provC1a provC1b = none ∧
    findPotentialDuplicates [provC1a, provC1b] = none := ⟨rfl, rfl⟩

/-- C4: the similarity score is symmetric, `score(a, b) = score(b, a)`,
for all record pairs (including pairs where the computation raises: both
orders raise together). -/
theorem C4_score_symmetric (a b : Provider) :
    calculateSimilarityScore a b = calculateSimilarityScore b a :=
  calculateSimilarityScore_comm a b

/-- C8: on an empty provider list `generate_deduplication_report` does not
raise and returns a report with empty duplicate and merge-candidate lists
and all summary counts (total analyzed, duplicates found, merge candidates,
auto-merge eligible) equal to zero. -/
theorem C8_empty_report :
    (generateDeduplicationReport []).map (fun r => r.duplicates) = some [] ∧
    (generateDeduplicationReport []).map (fun r => r.merge_candidates) =
      some [] ∧
    (generateDeduplicationReport []).map (fun r =>
      (r.total_providers_analyzed, r.potential_duplicates_found,
        r.merge_candidates_count, r.auto_merge_eligible_count)) =
      some (0, 0, 0, 0) :=
  ⟨rfl, rfl, rfl⟩

/-- C10: when both records have an empty or absent specialty the specialty
sub-score is 1.0 (empty equals empty), contributing the full 0.05 weight;
hence two all-absent records score exactly 0.05 — unlike the NPI, phone and
license terms, which contribute 0 whenever either side is empty. -/
theorem C10_empty_specialty_matches :
    (∀ a b : Provider,
      (a.specialty = none ∨ a.specialty = some (.vStr "")) →
      (b.specialty = none ∨ b.specialty = some (.vStr "")) →
      specContribution a b = some 0.05) ∧
    calculateSimilarityScore emptyProvider emptyProvider = some (1/20) ∧
    (∀ a b : Provider, npiKey a = "" → npiContribution a b = 0) ∧
    (∀ a b : Provider, npiKey b = "" → npiContribution a b = 0) ∧
    (∀ a b : Provider, normalizePhone (getS a.phone) = "" →
      phoneContribution a b = 0) ∧
    (∀ a b : Provider, normalizePhone (getS b.phone) = "" →
      phoneContribution a b = 0) ∧
    (∀ a b : Provider, licKey a = "" → licenseContribution a b = 0) ∧
    (∀ a b : Provider, licKey b = "" → licenseContribution a b = 0) := by
  have hspec : ∀ a b : Provider,
      (a.specialty = none ∨ a.specialty = some (.vStr "")) →
      (b.specialty = none ∨ b.specialty = some (.vStr "")) →
      specContribution a b = some 0.05 := by
    intro a b ha hb
    have hga : getS a.specialty = .vStr "" := by
      rcases ha with h | h <;> rw [getS, h] <;> rfl
    have hgb : getS b.specialty = .vStr "" := by
      rcases hb with h | h <;> rw [getS, h] <;> rfl
    exact specContribution_eq_weight a b "" "" hga hgb rfl
  refine ⟨hspec, ?_, ?_, ?_, ?_, ?_, ?_, ?_⟩
  · refine calcScore_eval emptyProvider emptyProvider 0 0 0 0 0 0.05 (1/20)
      (npiContribution_zero_left _ _ (by decide)) ?_
      (phoneContribution_zero_left _ _ (by decide)) ?_
      (licenseContribution_zero_left _ _ (by decide))
      (hspec emptyProvider emptyProvider (Or.inl rfl) (Or.inl rfl))
      (by norm_num)
    · unfold nameContribution
      rw [show nameKey emptyProvider = "" from by decide,
        stringSimilarity_empty_left, zero_mul]
    · unfold addressContribution
      rw [show normalizeAddress emptyProvider = "" from by decide,
        stringSimilarity_empty_left, zero_mul]
  · exact fun a b h => npiContribution_zero_left a b h
  · intro a b h
    rw [npiContribution_comm]
    exact npiContribution_zero_left b a h
  · exact fun a b h => phoneContribution_zero_left a b h
  · intro a b h
    rw [phoneContribution_comm]
    exact phoneContribution_zero_left b a h
  · exact fun a b h => licenseContribution_zero_left a b h
  · intro a b h
    rw [licenseContribution_comm]
    exact licenseContribution_zero_left b a h

/-- C10 witness: the conjuncts of the C10 theorem instantiated at the
all-absent record. -/
theorem C10_witness :
    specContribution emptyProvider emptyProvider = some 0.05 ∧
    npiContribution emptyProvider emptyProvider = 0 ∧
    phoneContribution emptyProvider emptyProvider = 0 ∧
    licenseContribution emptyProvider emptyProvider = 0 :=
  ⟨C10_empty_specialty_matches.1 emptyProvider emptyProvider (Or.inl rfl)
      (Or.inl rfl),
    C10_empty_specialty_matches.2.2.1 emptyProvider emptyProvider (by decide),
    C10_empty_specialty_matches.2.2.2.2.1 emptyProvider emptyProvider
      (by decide),
    C10_empty_specialty_matches.2.2.2.2.2.2.1 emptyProvider emptyProvider
      (by decide)⟩

theorem calcScore_W5 : calculateSimilarityScore provW5a provW5b = some 1 := by
  refine calcScore_eval provW5a provW5b 0.30 0.25 0.15 0.15 0.10 0.05 1
    (npiContribution_eq_weight _ _ (by decide) (by decide) (by decide))
    (nameContribution_eq_weight _ _ (by decide) (by decide))
    (phoneContribution_eq_weight _ _ (by decide) (by decide) (by decide))
    (addressContribution_eq_weight _ _ (by decide) (by decide))
    (licenseContribution_eq_weight _ _ (by decide) (by decide) (by decide))
    (specContribution_eq_weight _ _ "Cardiology" "Cardiology" rfl rfl rfl)
    (by norm_num)

theorem findPotentialDuplicates_W5 :
    findPotentialDuplicates [provW5a, provW5b] = some [dW5] := by
  unfold findPotentialDuplicates
  rw [show indexPairs ([provW5a, provW5b]).enum =
    [((0, provW5a), (1, provW5b))] from rfl]
  unfold findLoop
  rw [show pairKey provW5a provW5b =
    some (PyVal.vStr "P100", PyVal.vStr "P200") from by decide]
  dsimp only
  rw [if_neg (List.not_mem_nil _), calcScore_W5]
  dsimp only
  rw [if_pos (show SIMILARITY_THRESHOLD ≤ (1 : ℚ) from by
    norm_num [SIMILARITY_THRESHOLD])]
  rw [show getMatchingFields provW5a provW5b =
    some ["NPI", "Full Name", "Phone", "Specialty", "State"] from by decide]
  rfl

/-- C5: every `DuplicatePair` emitted by `find_potential_duplicates` has a
similarity score between 75 and 100 (the 0.75 threshold gate filters all
lower-scoring pairs) and the score is a one-decimal value (an integer
number of tenths). -/
theorem C5_threshold_gate (providers : List Provider)
    (out : List DuplicatePair) (h : findPotentialDuplicates providers = some out) :
    ∀ d ∈ out, 75 ≤ d.similarity_score ∧ d.similarity_score ≤ 100 ∧
      ∃ k : ℤ, d.similarity_score = (k : ℚ) / 10 := by
  obtain ⟨mid, hmid, hout⟩ := findPotentialDuplicates_parts providers out h
  intro d hd
  rw [hout, sortByScoreDesc_mem] at hd
  refine findLoop_forall
    (fun e => 75 ≤ e.similarity_score ∧ e.similarity_score ≤ 100 ∧
      ∃ k : ℤ, e.similarity_score = (k : ℚ) / 10)
    ?_ _ _ _ _ hmid (by simp) d hd
  intro i j p1 p2 sim matching hs hth
  obtain ⟨hs0, hs1⟩ := calculateSimilarityScore_bounds p1 p2 sim hs
  have hth2 : (0.75 : ℚ) ≤ sim := hth
  show (75 : ℚ) ≤ round1 (sim * 100) ∧ round1 (sim * 100) ≤ 100 ∧
    ∃ k : ℤ, round1 (sim * 100) = (k : ℚ) / 10
  have hge : (750 : ℤ) ≤ roundHalfEven (sim * 100 * 10) := by
    refine le_roundHalfEven _ _ ?_
    push_cast
    linarith
  have hle : roundHalfEven (sim * 100 * 10) ≤ 1000 := by
    refine roundHalfEven_le _ _ ?_
    push_cast
    linarith
  have hgeQ : (750 : ℚ) ≤ (roundHalfEven (sim * 100 * 10) : ℚ) := by
    exact_mod_cast hge
  have hleQ : (roundHalfEven (sim * 100 * 10) : ℚ) ≤ 1000 := by
    exact_mod_cast hle
  refine ⟨?_, ?_, ⟨roundHalfEven (sim * 100 * 10), rfl⟩⟩
  · unfold round1
    linarith
  · unfold round1
    linarith

/-- C5 witness: the gate property instantiated at the concrete
two-identical-record input, whose one emitted pair scores 100.0. -/
theorem C5_witness :
    75 ≤ dW5.similarity_score ∧ dW5.similarity_score ≤ 100 ∧
      ∃ k : ℤ, dW5.similarity_score = (k : ℚ) / 10 :=
  C5_threshold_gate [provW5a, provW5b] [dW5] findPotentialDuplicates_W5 dW5
    (List.mem_singleton_self dW5)

/-- C6: the list returned by `find_potential_duplicates` is sorted in
non-increasing order of `similarity_score`. -/
theorem C6_output_sorted_desc (providers : List Provider)
    (out : List DuplicatePair)
    (h : findPotentialDuplicates providers = some out) :
    out.Pairwise (fun a b => b.similarity_score ≤ a.similarity_score) := by
  obtain ⟨mid, hmid, hout⟩ := findPotentialDuplicates_parts providers out h
  rw [hout]
  exact sortByScoreDesc_sorted mid

/-- C6 witness: the ordering property instantiated at the concrete
two-record input. -/
theorem C6_witness :
    List.Pairwise (fun a b => b.similarity_score ≤ a.similarity_score)
      [dW5] :=
  C6_output_sorted_desc [provW5a, provW5b] [dW5] findPotentialDuplicates_W5

theorem stringSimilarity_eval (s1 s2 : String) (i u : ℕ)
    (h1 : s1 ≠ "") (h2 : s2 ≠ "") (hne : s1 ≠ s2)
    (ht1 : tokensS s1 ≠ ∅) (ht2 : tokensS s2 ≠ ∅)
    (hi : (tokensS s1 ∩ tokensS s2).card = i)
    (hu : (tokensS s1 ∪ tokensS s2).card = u) :
    stringSimilarity s1 s2 = (i : ℚ) / (u : ℚ) := by
  have hUne : tokensS s1 ∪ tokensS s2 ≠ ∅ := by
    intro hU
    refine ht1 (Finset.subset_empty.1 ?_)
    rw [← hU]
    exact Finset.subset_union_left
  unfold stringSimilarity
  rw [if_neg (show ¬(s1 = "" ∨ s2 = "") from fun h => h.elim h1 h2),
    if_neg hne,
    if_neg (show ¬(tokensS s1 = ∅ ∨ tokensS s2 = ∅) from
      fun h => h.elim ht1 ht2),
    if_neg hUne, hi, hu]

/-- C7: `suggest_merge_candidates` returns exactly the input pairs whose
score is at least 85, in input order (witnessed by the `pair_id`
projection), and marks a candidate auto-merge eligible iff its score is at
least 95. -/
theorem C7_merge_candidates (dups : List DuplicatePair) :
    (suggestMergeCandidates dups).map (fun c => c.pair_id) =
      (dups.filter (fun d => decide (85 ≤ d.similarity_score))).map
        (fun d => d.pair_id) ∧
    ∀ c ∈ suggestMergeCandidates dups,
      (c.auto_merge_eligible = true ↔ 95 ≤ c.similarity) := by
  constructor
  · induction dups with
    | nil => rfl
    | cons d rest ih =>
      rw [show suggestMergeCandidates (d :: rest) =
        if 85 ≤ d.similarity_score then
          mkMergeCandidate d :: suggestMergeCandidates rest
        else suggestMergeCandidates rest from rfl]
      by_cases h : 85 ≤ d.similarity_score
      · rw [if_pos h, List.filter_cons,
          if_pos (show decide (85 ≤ d.similarity_score) = true from
            decide_eq_true h),
          List.map_cons, List.map_cons, ih]
        rfl
      · rw [if_neg h, List.filter_cons,
          if_neg (show ¬(decide (85 ≤ d.similarity_score) = true) from by
            simpa using h), ih]
  · induction dups with
    | nil =>
      intro c hc
      exact absurd hc (List.not_mem_nil c)
    | cons d rest ih =>
      intro c hc
      rw [show suggestMergeCandidates (d :: rest) =
        if 85 ≤ d.similarity_score then
          mkMergeCandidate d :: suggestMergeCandidates rest
        else suggestMergeCandidates rest from rfl] at hc
      by_cases h : 85 ≤ d.similarity_score
      · rw [if_pos h] at hc
        rcases List.mem_cons.1 hc with rfl | hcr
        · exact ⟨of_decide_eq_true, decide_eq_true⟩
        · exact ih c hcr
      · rw [if_neg h] at hc
        exact ih c hc

theorem suggest_witness_eval :
    suggestMergeCandidates [dup96, dup86, dup80] =
      [mkMergeCandidate dup96, mkMergeCandidate dup86] := by
  unfold suggestMergeCandidates
  rw [List.foldr_cons, List.foldr_cons, List.foldr_cons, List.foldr_nil]
  rw [if_neg (show ¬((85 : ℚ) ≤ dup80.similarity_score) from by
    rw [show dup80.similarity_score = 80 from rfl]; norm_num)]
  rw [if_pos (show (85 : ℚ) ≤ dup86.similarity_score from by
    rw [show dup86.similarity_score = 86 from rfl]; norm_num)]
  rw [if_pos (show (85 : ℚ) ≤ dup96.similarity_score from by
    rw [show dup96.similarity_score = 96 from rfl]; norm_num)]

/-- C7 witness: the merge-candidate property instantiated at a concrete
three-pair list with scores 96, 86 and 80. -/
theorem C7_witness :
    (suggestMergeCandidates [dup96, dup86, dup80]).map (fun c => c.pair_id) =
      (([dup96, dup86, dup80]).filter
        (fun d => decide (85 ≤ d.similarity_score))).map
        (fun d => d.pair_id) ∧
    ((mkMergeCandidate dup96).auto_merge_eligible = true ↔
      95 ≤ (mkMergeCandidate dup96).similarity) :=
  ⟨(C7_merge_candidates [dup96, dup86, dup80]).1,
    (C7_merge_candidates [dup96, dup86, dup80]).2 (mkMergeCandidate dup96)
      (by rw [suggest_witness_eval]; exact List.mem_cons_self _ _)⟩

/-- C2 counterexample: `provC2a`/`provC2b` satisfy every condition of the
claim (identical NPI `1234567890`, names John Smith, phones normalizing to
the same 10 digits, identical specialty Cardiology, different streets with
the same city/state/zip) yet score 0.80 < 0.85, with confidence "Medium"
and action "Review for potential merge" — refuting the claimed ≥ 0.85 /
"High" / "Manual review and merge".  (The spec's own arithmetic
0.30+0.25+0.15+0.05 sums to 0.75, not 0.85.) -/
theorem C2_counterexample :
    calculateSimilarityScore provC2a provC2b = some (4/5) ∧
    ¬((17/20 : ℚ) ≤ 4/5) ∧
    getConfidenceLevel (4/5) = "Medium" ∧
    getRecommendedAction (4/5) = "Review for potential merge" := by
  refine ⟨?_, by norm_num, ?_, ?_⟩
  · refine calcScore_eval provC2a provC2b 0.30 0.25 0.15 0.05 0 0.05 (4/5)
      (npiContribution_eq_weight _ _ (by decide) (by decide) (by decide))
      (nameContribution_eq_weight _ _ (by decide) (by decide))
      (phoneContribution_eq_weight _ _ (by decide) (by decide) (by decide))
      ?_
      (licenseContribution_zero_left _ _ (by decide))
      (specContribution_eq_weight _ _ "Cardiology" "Cardiology" rfl rfl rfl)
      (by norm_num)
    unfold addressContribution
    rw [show normalizeAddress provC2a =
        "100 maple road springfield il 62704" from by decide,
      show normalizeAddress provC2b =
        "200 oak lane springfield il 62704" from by decide,
      stringSimilarity_eval _ _ 3 9 (by decide) (by decide) (by decide)
        (by decide) (by decide) (by decide) (by decide), FW_address]
    norm_num
  · unfold getConfidenceLevel
    rw [if_neg (by norm_num), if_neg (by norm_num), if_pos (by norm_num)]
  · unfold getRecommendedAction
    rw [if_neg (by norm_num), if_neg (by norm_num), if_pos (by norm_num)]

/-- C2 (amended): under the claim's conditions the exact NPI, name, phone
and specialty terms already guarantee a score of at least
0.30+0.25+0.15+0.05 = 0.75, so the pair is flagged (threshold 0.75) with
confidence at least "Medium"; 0.85/"High" is not guaranteed. -/
theorem C2_amended (a b : Provider)
    (h1 : a.npi = some (.vStr "1234567890"))
    (h2 : b.npi = some (.vStr "1234567890"))
    (h3 : a.first_name = some (.vStr "John"))
    (h4 : a.last_name = some (.vStr "Smith"))
    (h5 : b.first_name = some (.vStr "John"))
    (h6 : b.last_name = some (.vStr "Smith"))
    (h7 : normalizePhone (getS a.phone) = normalizePhone (getS b.phone))
    (h8 : normalizePhone (getS a.phone) ≠ "")
    (h9 : a.specialty = some (.vStr "Cardiology"))
    (h10 : b.specialty = some (.vStr "Cardiology")) :
    ∃ s, calculateSimilarityScore a b = some s ∧ SIMILARITY_THRESHOLD ≤ s ∧
      (getConfidenceLevel s = "Medium" ∨ getConfidenceLevel s = "High" ∨
        getConfidenceLevel s = "Very High") := by
  have hnpiA : npiKey a = "1234567890" := by
    unfold npiKey getS
    rw [h1]
    decide
  have hnpiB : npiKey b = "1234567890" := by
    unfold npiKey getS
    rw [h2]
    decide
  have hnameA : nameKey a = "john smith" := by
    unfold nameKey nameRawS getS
    rw [h3, h4]
    decide
  have hnameB : nameKey b = "john smith" := by
    unfold nameKey nameRawS getS
    rw [h5, h6]
    decide
  have hspecA : getS a.specialty = .vStr "Cardiology" := by
    unfold getS
    rw [h9]
    rfl
  have hspecB : getS b.specialty = .vStr "Cardiology" := by
    unfold getS
    rw [h10]
    rfl
  have hn : npiContribution a b = 0.30 :=
    npiContribution_eq_weight a b (by rw [hnpiA]; decide)
      (by rw [hnpiB]; decide) (by rw [hnpiA, hnpiB])
  have hm : nameContribution a b = 0.25 :=
    nameContribution_eq_weight a b (by rw [hnameA]; decide)
      (by rw [hnameA, hnameB])
  have hp : phoneContribution a b = 0.15 :=
    phoneContribution_eq_weight a b h8 (h7 ▸ h8) h7
  have hsp : specContribution a b = some 0.05 :=
    specContribution_eq_weight a b "Cardiology" "Cardiology" hspecA hspecB rfl
  have ha0 := addressContribution_nonneg a b
  have hl0 := licenseContribution_nonneg a b
  refine ⟨0.30 + 0.25 + 0.15 + addressContribution a b +
    licenseContribution a b + 0.05,
    calcScore_eval a b 0.30 0.25 0.15 (addressContribution a b)
      (licenseContribution a b) 0.05 _ hn hm hp rfl rfl hsp rfl, ?_, ?_⟩
  · unfold SIMILARITY_THRESHOLD
    linarith
  · by_cases hc1 : (0.95 : ℚ) ≤ 0.30 + 0.25 + 0.15 + addressContribution a b +
      licenseContribution a b + 0.05
    · right; right
      unfold getConfidenceLevel
      rw [if_pos hc1]
    · by_cases hc2 : (0.85 : ℚ) ≤ 0.30 + 0.25 + 0.15 +
        addressContribution a b + licenseContribution a b + 0.05
      · right; left
        unfold getConfidenceLevel
        rw [if_neg hc1, if_pos hc2]
      · left
        unfold getConfidenceLevel
        rw [if_neg hc1, if_neg hc2, if_pos (by linarith)]

/-- C2 witness: the amended statement instantiated at the concrete
counterexample records, which satisfy all its hypotheses. -/
theorem C2_witness :
    ∃ s, calculateSimilarityScore provC2a provC2b = some s ∧
      SIMILARITY_THRESHOLD ≤ s ∧
      (getConfidenceLevel s = "Medium" ∨ getConfidenceLevel s = "High" ∨
        getConfidenceLevel s = "Very High") :=
  C2_amended provC2a provC2b rfl rfl rfl rfl rfl rfl (by decide) (by decide)
    rfl rfl

/-- C3 counterexample: `provC3` has all eleven fields non-empty strings,
yet compared against an exact copy of itself it scores 0.85, not 1.0
(the phone `"abc"` has no digits, so after normalization the phone term is
skipped), and the confidence is "High", not "Very High".  This refutes the
claim as stated. -/
theorem C3_counterexample :
    calculateSimilarityScore provC3 provC3 = some (17/20) ∧
    (17/20 : ℚ) ≠ 1 ∧
    getConfidenceLevel (17/20) = "High" := by
  refine ⟨?_, by norm_num, ?_⟩
  · refine calcScore_eval provC3 provC3 0.30 0.25 0 0.15 0.10 0.05 (17/20)
      (npiContribution_eq_weight _ _ (by decide) (by decide) rfl)
      (nameContribution_eq_weight _ _ (by decide) rfl)
      (phoneContribution_zero_left _ _ (by decide))
      (addressContribution_eq_weight _ _ (by decide) rfl)
      (licenseContribution_eq_weight _ _ (by decide) (by decide) rfl)
      (specContribution_eq_weight _ _ "Cardiology" "Cardiology" rfl rfl rfl)
      (by norm_num)
  · unfold getConfidenceLevel
    rw [if_neg (by norm_num), if_pos (by norm_num)]

/-- C3 (amended): the self-comparison scores exactly 1.0 — with confidence
"Very High" and an auto-merge-eligible merge candidate — provided the
record's comparison keys are genuinely non-empty: the stripped NPI, the
lower-cased stripped full name, the digit-normalized phone, the normalized
address and the stripped upper-cased license are all non-empty, and the
specialty is a string.  (All fields being non-empty strings is not enough:
a digit-free phone or whitespace-only NPI/name/license drops its term.) -/
theorem C3_amended (p : Provider) (i j : Nat) (m : List String)
    (h1 : npiKey p ≠ "") (h2 : nameKey p ≠ "")
    (h3 : normalizePhone (getS p.phone) ≠ "")
    (h4 : normalizeAddress p ≠ "") (h5 : licKey p ≠ "")
    (h6 : ∃ t, getS p.specialty = .vStr t) :
    calculateSimilarityScore p p = some 1 ∧
    getConfidenceLevel 1 = "Very High" ∧
    (mkMergeCandidate
      (mkDuplicateRecord i j p p 1 m)).auto_merge_eligible = true := by
  obtain ⟨t, ht⟩ := h6
  refine ⟨calcScore_eval p p 0.30 0.25 0.15 0.15 0.10 0.05 1
    (npiContribution_eq_weight p p h1 h1 rfl)
    (nameContribution_eq_weight p p h2 rfl)
    (phoneContribution_eq_weight p p h3 h3 rfl)
    (addressContribution_eq_weight p p h4 rfl)
    (licenseContribution_eq_weight p p h5 h5 rfl)
    (specContribution_eq_weight p p t t ht ht rfl)
    (by norm_num), ?_, ?_⟩
  · unfold getConfidenceLevel
    rw [if_pos (by norm_num)]
  · show decide (95 ≤ (mkDuplicateRecord i j p p 1 m).similarity_score) = true
    have hs : (mkDuplicateRecord i j p p 1 m).similarity_score = 100 := by
      show round1 (1 * 100) = 100
      have hf : roundHalfEven ((1 : ℚ) * 100 * 10) = 1000 := by
        unfold roundHalfEven
        norm_num
      unfold round1
      rw [hf]
      norm_num
    rw [hs]
    exact decide_eq_true (by norm_num)

/-- C3 witness: the amended statement instantiated at a fully populated
record with genuinely non-empty keys. -/
theorem C3_witness :
    calculateSimilarityScore provW3 provW3 = some 1 ∧
    getConfidenceLevel 1 = "Very High" ∧
    (mkMergeCandidate
      (mkDuplicateRecord 0 1 provW3 provW3 1 [])).auto_merge_eligible = true :=
  C3_amended provW3 0 1 [] (by decide) (by decide) (by decide) (by decide)
    (by decide) ⟨"Cardiology", rfl⟩

/-- C9 counterexample: `cex9a`/`cex9b` satisfy the claim's conditions
(empty NPI, differing names, differing phones/addresses/licenses, shared
specialty and no other shared field value) yet score 7/40 = 0.175 > 0.05,
because the differing names still overlap on the tokens "john" and
"smith".  This refutes the claimed ≤ 0.05 bound. -/
theorem C9_counterexample :
    calculateSimilarityScore cex9a cex9b = some (7/40) ∧
    ¬((7/40 : ℚ) ≤ 1/20) := by
  refine ⟨?_, by norm_num⟩
  refine calcScore_eval cex9a cex9b 0 (1/8) 0 0 0 0.05 (7/40)
    (npiContribution_zero_left _ _ (by decide))
    ?_
    (phoneContribution_zero_of_disjoint _ _ (by decide) (by decide))
    (addressContribution_zero_of_disjoint _ _ (by decide) (by decide))
    (licenseContribution_zero_of_disjoint _ _ (by decide) (by decide))
    (specContribution_eq_weight _ _ "Cardiology" "Cardiology" rfl rfl rfl)
    (by norm_num)
  unfold nameContribution
  rw [show nameKey cex9a = "john smith jr" from by decide,
    show nameKey cex9b = "mary john smith" from by decide,
    stringSimilarity_eval _ _ 2 4 (by decide) (by decide) (by decide)
      (by decide) (by decide) (by decide) (by decide), FW_name]
  norm_num

/-- C9 (amended): with an empty NPI and genuinely dissimilar remaining
fields — token-disjoint names, differing normalized phones with disjoint
token sets, token-disjoint normalized addresses and token-disjoint
license keys — the score is at most 0.05 (only the specialty term can
contribute), which is below the 0.75 threshold, and
`find_potential_duplicates` on the two records emits nothing. -/
theorem C9_amended (a b : Provider)
    (hnpi : npiKey a = "")
    (hid1 : ∃ x, getS a.provider_id = .vStr x)
    (hid2 : ∃ y, getS b.provider_id = .vStr y)
    (hname : nameKey a ≠ nameKey b)
    (hnameT : tokensS (nameKey a) ∩ tokensS (nameKey b) = ∅)
    (hph : normalizePhone (getS a.phone) ≠ normalizePhone (getS b.phone))
    (hphT : tokensS (normalizePhone (getS a.phone)) ∩
      tokensS (normalizePhone (getS b.phone)) = ∅)
    (haddr : normalizeAddress a ≠ normalizeAddress b)
    (haddrT : tokensS (normalizeAddress a) ∩ tokensS (normalizeAddress b) = ∅)
    (hlic : licKey a ≠ licKey b)
    (hlicT : tokensS (licKey a) ∩ tokensS (licKey b) = ∅)
    (hs1 : ∃ t, getS a.specialty = .vStr t)
    (hs2 : ∃ t, getS b.specialty = .vStr t) :
    ∃ s, calculateSimilarityScore a b = some s ∧ s ≤ 1/20 ∧
      s < SIMILARITY_THRESHOLD ∧
      findPotentialDuplicates [a, b] = some [] := by
  obtain ⟨t1, ht1⟩ := hs1
  obtain ⟨t2, ht2⟩ := hs2
  obtain ⟨sc, hsc⟩ : ∃ sc, specContribution a b = some sc := by
    unfold specContribution
    rw [ht1, ht2]
    exact ⟨_, rfl⟩
  obtain ⟨hsc0, hsc5⟩ := specContribution_bounds a b sc hsc
  have hcalc : calculateSimilarityScore a b = some sc :=
    calcScore_eval a b 0 0 0 0 0 sc sc
      (npiContribution_zero_left a b hnpi)
      (nameContribution_zero_of_disjoint a b hname hnameT)
      (phoneContribution_zero_of_disjoint a b hph hphT)
      (addressContribution_zero_of_disjoint a b haddr haddrT)
      (licenseContribution_zero_of_disjoint a b hlic hlicT)
      hsc (by ring)
  obtain ⟨x, hx⟩ := hid1
  obtain ⟨y, hy⟩ := hid2
  refine ⟨sc, hcalc, by linarith, ?_, ?_⟩
  · unfold SIMILARITY_THRESHOLD
    linarith
  · unfold findPotentialDuplicates
    rw [show indexPairs ([a, b]).enum = [((0, a), (1, b))] from rfl]
    unfold findLoop
    rw [show pairKey a b = some (if strLtB y.toList x.toList
        then (PyVal.vStr y, PyVal.vStr x)
        else (PyVal.vStr x, PyVal.vStr y)) from by
      unfold pairKey
      rw [hx, hy]
      rfl]
    dsimp only
    rw [if_neg (List.not_mem_nil _), hcalc]
    dsimp only
    rw [if_neg (show ¬(SIMILARITY_THRESHOLD ≤ sc) from by
      unfold SIMILARITY_THRESHOLD
      intro hcon
      linarith)]
    rfl

/-- C9 witness: the amended statement instantiated at two concrete records
meeting all its hypotheses. -/
theorem C9_witness :
    ∃ s, calculateSimilarityScore provW9a provW9b = some s ∧ s ≤ 1/20 ∧
      s < SIMILARITY_THRESHOLD ∧
      findPotentialDuplicates [provW9a, provW9b] = some [] :=
  C9_amended provW9a provW9b (by decide) ⟨"P1", rfl⟩ ⟨"P2", rfl⟩ (by decide)
    (by decide) (by decide) (by decide) (by decide) (by decide) (by decide)
    (by decide) ⟨"Cardiology", rfl⟩ ⟨"Cardiology", rfl⟩
